import Mathlib

/-!
# Verification of the edgarkit transport core (`src/core.rs`)

Shallow embedding of the rate-limited, retrying HTTP transport core of the
`edgarkit` Rust library: `Edgar::with_config`, `Edgar::new`,
`Edgar::calculate_backoff`, `Edgar::get` (fetch-as-text) and
`Edgar::get_bytes` (fetch-as-bytes).

Modelling conventions:
* One HTTP attempt is an `AttemptResult`: either a transport-level error
  (`reqwest::Error`, opaque, identified by a numeral) or a response carrying a
  status code, an optional `Content-Type` header, an optional `Retry-After`
  header, and the body (bodies are assumed readable; the body-read error path
  is not exercised by any property considered here).
* A logical call is driven by `att : Nat → AttemptResult`, giving the outcome
  of the i-th HTTP attempt, and `rand : Nat → ℚ`, giving the `fastrand::f64()`
  sample (a rational in [0,1), standing for the float) drawn when backing off
  with the retry counter at that value.
* The retry loop of the source (`loop` with a `retries` counter checked
  against `MAX_RETRIES`) is compiled to structural recursion on
  `remaining = MAX_RETRIES - retries`; the source guard `retries >= MAX_RETRIES`
  is the pattern `remaining = 0`.
* `Duration`s are millisecond counts (`Nat`); `Duration::from_secs n` is
  `n * 1000`.
* The `Display` rendering of a `reqwest::StatusCode` is modelled as the bare
  numeral (the canonical reason phrase appended by the real `Display`
  implementation is not modelled; no property here depends on it).
* Rust `char::is_whitespace` (= Unicode `White_Space`) is modelled by
  `isRustWhitespace`, which spells out the full `White_Space` set.
  Rust `str::to_lowercase` is modelled character-wise with `Char.toLower`;
  that is adequate for the `"text/html"` containment test, since no character
  lowercases into any character of `"text/html"` other than itself.
-/

set_option maxHeartbeats 1000000

/-- `MAX_RETRIES` from `core.rs`. -/
def MAX_RETRIES : Nat := 5

/-- `INITIAL_BACKOFF_MS` from `core.rs` (1 second). -/
def INITIAL_BACKOFF_MS : Nat := 1000

/-- The variants of `EdgarError` (from `error.rs`) reachable from the
transport core and from client construction.  A `reqwest::Error` payload is
opaque and represented by a numeral. -/
inductive EdgarError where
  | RequestError (e : Nat)
  | NotFound
  | InvalidResponse (msg : String)
  | RateLimitExceeded
  | ConfigError (msg : String)
  | UnexpectedContentType (url : String) (expected_pattern : String)
      (got_content_type : String) (content_preview : String)
deriving DecidableEq, Repr

/-- The outcome of a single HTTP attempt (`self.client.get(url).send().await`):
either a transport-level failure before any status is available, or a response
with its status code, optional `Content-Type` header, optional `Retry-After`
header, and body. -/
inductive AttemptResult where
  | transportError (e : Nat)
  | response (status : Nat) (contentType : Option String)
      (retryAfter : Option String) (body : String)
deriving DecidableEq, Repr

instance {ε α : Type} [DecidableEq ε] [DecidableEq α] : DecidableEq (Except ε α) := fun x y =>
  match x, y with
  | .ok a, .ok b =>
    if h : a = b then isTrue (by subst h; rfl)
    else isFalse (fun hc => h (by injection hc))
  | .ok _, .error _ => isFalse (fun hc => Except.noConfusion hc)
  | .error _, .ok _ => isFalse (fun hc => Except.noConfusion hc)
  | .error e, .error f =>
    if h : e = f then isTrue (by subst h; rfl)
    else isFalse (fun hc => h (by injection hc))

/-- The observable trace of one logical `get` / `get_bytes` call: the result,
the number of HTTP attempts issued, and the list of sleep durations (in
milliseconds, in order) performed between attempts. -/
structure FetchTrace (α : Type) where
  result : Except EdgarError α
  attempts : Nat
  sleeps : List Nat
deriving DecidableEq, Repr

/-- Rust's `as i64` cast of an `f64`: truncation toward zero (the float value
is modelled as an exact rational; saturation is irrelevant at the magnitudes
involved). -/
def truncF64 (x : ℚ) : Int := if 0 ≤ x then ⌊x⌋ else ⌈x⌉

/-- `Edgar::calculate_backoff` from `core.rs`, in milliseconds.
`rand` is the `fastrand::f64()` sample (in `[0,1)`).
Source:
`backoff_ms = INITIAL_BACKOFF_MS * 2^retry`;
`jitter = (backoff_ms as f64 * 0.2 * (fastrand::f64() - 0.5)) as i64`;
result `= (backoff_ms as i64 + jitter) as u64` (the final `as u64` wraps
modulo `2^64`). -/
def calculate_backoff (rand : ℚ) (retry : Nat) : Nat :=
  let backoff_ms : Nat := INITIAL_BACKOFF_MS * 2 ^ retry
  let jitter : Int := truncF64 ((backoff_ms : ℚ) * (2 / 10) * (rand - 1 / 2))
  (((backoff_ms : Int) + jitter) % (2 : Int) ^ 64).toNat

/-- `reqwest::StatusCode::is_success`: `200 ≤ s ≤ 299`. -/
def isSuccess (s : Nat) : Bool := 200 ≤ s && s ≤ 299

/-- Rust `str::ends_with` with a literal pattern, as character-list suffix
(byte suffix and character suffix coincide on valid UTF-8). -/
def endsWithStr (s suf : String) : Bool := suf.toList.isSuffixOf s.toList

/-- Substring containment, as Rust's `str::contains` with a literal pattern. -/
def containsSub (s pat : String) : Bool :=
  (List.range (s.toList.length + 1)).any fun i => pat.toList.isPrefixOf (s.toList.drop i)

/-- Rust `str::to_lowercase`, modelled character-wise with `Char.toLower`. -/
def lowerStr (s : String) : String := String.mk (s.toList.map Char.toLower)

/-- The content-type test of `Edgar::get`:
`ct.to_lowercase().contains("text/html")`. -/
def ctContainsHtml (ct : String) : Bool := containsSub (lowerStr ct) "text/html"

/-- Rust `char::is_whitespace`: the Unicode `White_Space` property
(U+0009–U+000D, U+0020, U+0085, U+00A0, U+1680, U+2000–U+200A, U+2028,
U+2029, U+202F, U+205F, U+3000).  Lean's `Char.isWhitespace` is narrower
(it drops `\x0B`, `\x0C` and every non-ASCII case), so the set is spelled
out. -/
def isRustWhitespace (c : Char) : Bool :=
  (0x9 ≤ c.toNat && c.toNat ≤ 0xD) || c.toNat = 0x20 || c.toNat = 0x85 ||
  c.toNat = 0xA0 || c.toNat = 0x1680 || (0x2000 ≤ c.toNat && c.toNat ≤ 0x200A) ||
  c.toNat = 0x2028 || c.toNat = 0x2029 || c.toNat = 0x202F || c.toNat = 0x205F ||
  c.toNat = 0x3000

/-- The JSON body sniff of `Edgar::get`:
`body.trim_start().starts_with('{') || body.trim_start().starts_with('[')`,
with `trim_start` stripping Unicode `White_Space` characters. -/
def looksLikeJson (body : String) : Bool :=
  match body.toList.dropWhile isRustWhitespace with
  | [] => false
  | c :: _ => c = '\x7b' || c = '['

/-- `body.chars().take(n).collect::<String>()`. -/
def takeChars (n : Nat) (s : String) : String := String.mk (s.toList.take n)

/-- Rust `str::parse::<u64>()`: an optional leading `+`, then one or more
ASCII digits, value below `2^64`. -/
def parseU64 (s : String) : Option Nat :=
  let l := s.toList
  let digs := match l with
    | '+' :: rest => rest
    | _ => l
  if digs.isEmpty then none
  else if digs.all Char.isDigit then
    let n := digs.foldl (fun acc c => acc * 10 + (c.toNat - 48)) 0
    if n < 2 ^ 64 then some n else none
  else none

/-- The wait chosen by `Edgar::get` on a 429 with retries remaining:
the `Retry-After` header parsed as whole seconds when present and parseable
(converted from `Duration::from_secs` to milliseconds), otherwise
`calculate_backoff`. -/
def retryAfterWaitMs (retryAfter : Option String) (rand : ℚ) (retries : Nat) : Nat :=
  match retryAfter.bind parseU64 with
  | some secs => secs * 1000
  | none => calculate_backoff rand retries

/-- The `InvalidResponse` message built by `Edgar::get` for an unexpected
status (status rendered as its numeral, see module conventions). -/
def invalidResponseMsgText (status : Nat) (url : String) (body : String) : String :=
  "Unexpected status code: " ++ toString status ++ " for URL: " ++ url ++
    ". Response preview: " ++ takeChars 200 body

/-- The content-type validation block of `Edgar::get` (the `if
url.ends_with(".json") && status.is_success()` block): `some r` when that
block returns `r` from the call, `none` when control falls through to the
standard status handling. -/
def sniffOutcome (url : String) (status : Nat) (ct : Option String)
    (body : String) : Option (Except EdgarError String) :=
  if endsWithStr url ".json" && isSuccess status then
    match ct with
    | some c =>
      if ctContainsHtml c then
        some (if looksLikeJson body then .ok body
          else .error (.UnexpectedContentType url "application/json" c (takeChars 200 body)))
      else none
    | none => none
  else none

/-- Classification of one loop iteration: either the call returns `res` now,
or the iteration is a retryable failure, recorded with the error returned
when the retry budget is exhausted (`retries >= MAX_RETRIES`) and the wait
computed (from jitter sample and current retry count) before the next
attempt. -/
inductive StepClass where
  | done (res : Except EdgarError String)
  | retry (exhausted : EdgarError) (wait : ℚ → Nat → Nat)

/-- The body of one iteration of `Edgar::get`'s loop, from the source:
a transport error is retryable with a `calculate_backoff` wait (exhausted ⇒
`RequestError`); otherwise the content-type validation block runs first, and
then the standard status handling: 200 ⇒ body, 404 ⇒ `NotFound`, 429 ⇒
retryable with the `Retry-After`-or-backoff wait (exhausted ⇒
`RateLimitExceeded`), anything else ⇒ `InvalidResponse`. -/
def textStep (url : String) : AttemptResult → StepClass
  | .transportError e => .retry (.RequestError e) (fun q retries => calculate_backoff q retries)
  | .response status ct retryAfter body =>
    match sniffOutcome url status ct body with
    | some res => .done res
    | none =>
      if status = 200 then .done (.ok body)
      else if status = 404 then .done (.error .NotFound)
      else if status = 429 then
        .retry .RateLimitExceeded (fun q retries => retryAfterWaitMs retryAfter q retries)
      else .done (.error (.InvalidResponse (invalidResponseMsgText status url body)))

/-- The body of one iteration of `Edgar::get_bytes`'s loop, from the source:
a transport error is returned immediately (`.map_err(EdgarError::RequestError)?`
— no retry), there is no content-type validation, and the 429 wait is always
`calculate_backoff` (the `Retry-After` header is never consulted). -/
def bytesStep : AttemptResult → StepClass
  | .transportError e => .done (.error (.RequestError e))
  | .response status _ct _retryAfter body =>
    if status = 200 then .done (.ok body)
    else if status = 404 then .done (.error .NotFound)
    else if status = 429 then
      .retry .RateLimitExceeded (fun q retries => calculate_backoff q retries)
    else .done (.error (.InvalidResponse ("Unexpected status code: " ++ toString status)))

/-- The shared retry loop shape of `Edgar::get` / `Edgar::get_bytes` (the
source's `loop`/`continue` with a `retries` counter, compiled to recursion on
`remaining = MAX_RETRIES - retries`; `remaining = 0` is the source guard
`retries >= MAX_RETRIES`).  `idx` counts HTTP attempts already issued and
`sleeps` accumulates the waits performed. -/
def runLoop (step : AttemptResult → StepClass) (att : Nat → AttemptResult)
    (rand : Nat → ℚ) : Nat → Nat → List Nat → FetchTrace String
  | 0, idx, sleeps =>
    match step (att idx) with
    | .done res => ⟨res, idx + 1, sleeps⟩
    | .retry exhausted _wait => ⟨.error exhausted, idx + 1, sleeps⟩
  | r + 1, idx, sleeps =>
    match step (att idx) with
    | .done res => ⟨res, idx + 1, sleeps⟩
    | .retry _exhausted wait =>
      runLoop step att rand r (idx + 1)
        (sleeps ++ [wait (rand (MAX_RETRIES - (r + 1))) (MAX_RETRIES - (r + 1))])

/-- `Edgar::get` (fetch-as-text): run the retry loop with `retries = 0`. -/
def fetchText (url : String) (att : Nat → AttemptResult) (rand : Nat → ℚ) :
    FetchTrace String :=
  runLoop (textStep url) att rand MAX_RETRIES 0 []

/-- `Edgar::get_bytes` (fetch-as-bytes); the body bytes are represented by the
same `String` carried by the attempt. `url` only addresses the request and
plays no role in classification. -/
def fetchBytes (_url : String) (att : Nat → AttemptResult) (rand : Nat → ℚ) :
    FetchTrace String :=
  runLoop bytesStep att rand MAX_RETRIES 0 []

/-- `EdgarUrls` from `config.rs`: the four base URL prefixes. -/
structure EdgarUrls where
  archives : String
  data : String
  files : String
  search : String
deriving DecidableEq, Repr

/-- `EdgarUrls::default()` from `config.rs`. -/
def EdgarUrls.default : EdgarUrls :=
  ⟨"https://www.sec.gov/Archives/edgar", "https://data.sec.gov",
    "https://www.sec.gov/files", "https://efts.sec.gov/LATEST/search-index/"⟩

/-- `EdgarConfig` from `config.rs`.  `timeout` is `Duration::from_secs`
seconds. -/
structure EdgarConfig where
  user_agent : String
  rate_limit : Nat
  timeout : Nat
  base_urls : EdgarUrls
deriving DecidableEq, Repr

/-- The `reqwest::Client` built by `with_config`: opaque to this development
beyond the configuration baked into it (default `User-Agent` header and
per-request timeout). -/
structure HttpClient where
  userAgent : String
  timeoutSecs : Nat
deriving DecidableEq, Repr

/-- The `Edgar` struct from `core.rs`: HTTP client, rate limiter (represented
by its per-second quota) and the four stored base URLs. -/
structure Edgar where
  client : HttpClient
  rate_limiter : Nat
  edgar_archives_url : String
  edgar_data_url : String
  edgar_files_url : String
  edgar_search_url : String
deriving DecidableEq, Repr

/-- The two fallible external library calls made by `with_config`, as oracles:
`http::HeaderValue::from_str` on the user agent, and
`reqwest::Client::builder().default_headers(..).timeout(..).build()`.
Construction performs no network connection, so neither oracle depends on
network state. -/
structure Externals where
  headerValueOk : String → Bool
  clientBuildOk : String → Nat → Bool

/-- `Edgar::with_config` from `core.rs`: insert the user agent as a header
value (fail ⇒ `ConfigError`), build the HTTP client (fail ⇒ `ConfigError`),
build the rate limiter from `NonZeroU32::new(rate_limit)` (zero ⇒
`ConfigError`), then assemble the struct.  The `{}` payloads interpolated
from the library error values are not modelled. -/
def with_config (ext : Externals) (config : EdgarConfig) : Except EdgarError Edgar :=
  if ext.headerValueOk config.user_agent then
    if ext.clientBuildOk config.user_agent config.timeout then
      match config.rate_limit with
      | 0 => .error (.ConfigError "Rate limit must be greater than zero")
      | n + 1 =>
        .ok ⟨⟨config.user_agent, config.timeout⟩, n + 1,
          config.base_urls.archives, config.base_urls.data,
          config.base_urls.files, config.base_urls.search⟩
    else .error (.ConfigError "Failed to build HTTP client")
  else .error (.ConfigError "Invalid user agent")

/-- `Edgar::new` from `core.rs`: `with_config` on the default configuration
built inline (rate limit 10, 30-second timeout, `EdgarUrls::default()`). -/
def Edgar.new (ext : Externals) (user_agent : String) : Except EdgarError Edgar :=
  with_config ext ⟨user_agent, 10, 30, EdgarUrls.default⟩

/-- The configuration named by claim C10, written from the claim's own words:
user agent `ua`, rate limit 10, timeout 30 seconds, and the default EDGAR
base URLs spelled out. -/
def claimDefaultConfig (ua : String) : EdgarConfig :=
  ⟨ua, 10, 30,
    ⟨"https://www.sec.gov/Archives/edgar", "https://data.sec.gov",
      "https://www.sec.gov/files", "https://efts.sec.gov/LATEST/search-index/"⟩⟩

/-- A URL split into the part before the path, the path itself, and an
optional query string; `render` is the flat string the fetches receive.  The
source operates on the flat string only. -/
structure Url where
  base : String
  path : String
  query : Option String
deriving DecidableEq, Repr

/-- The flat URL string: `base ++ path`, with `?query` appended when a query
string is present. -/
def Url.render (u : Url) : String :=
  u.base ++ u.path ++ (match u.query with | none => "" | some q => "?" ++ q)

/-- `Edgar::get`'s loop body with the content-type validation block removed:
the validation-free classification claim C7 compares against. -/
def plainTextStep (url : String) : AttemptResult → StepClass
  | .transportError e => .retry (.RequestError e) (fun q retries => calculate_backoff q retries)
  | .response status _ct retryAfter body =>
    if status = 200 then .done (.ok body)
    else if status = 404 then .done (.error .NotFound)
    else if status = 429 then
      .retry .RateLimitExceeded (fun q retries => retryAfterWaitMs retryAfter q retries)
    else .done (.error (.InvalidResponse (invalidResponseMsgText status url body)))

/-- `Edgar::get` with the content-type validation block removed. -/
def fetchTextPlain (url : String) (att : Nat → AttemptResult) (rand : Nat → ℚ) :
    FetchTrace String :=
  runLoop (plainTextStep url) att rand MAX_RETRIES 0 []

/-- Erase an attempt's `Content-Type` header (the header `get_bytes` never
reads). -/
def eraseCT : AttemptResult → AttemptResult
  | .transportError e => .transportError e
  | .response s _ct ra b => .response s none ra b

/-- `truncF64` at zero. -/
theorem truncF64_zero : truncF64 0 = 0 := by simp [truncF64]

/-- With the jitter sample exactly `1/2` the jitter vanishes, so the backoff
is the un-jittered base `1000 * 2^retry` ms (for the retry counts the loop can
reach). -/
theorem calculate_backoff_half (r : Nat) (hr : r ≤ 5) :
    calculate_backoff (1 / 2) r = 1000 * 2 ^ r := by
  have hq : ((INITIAL_BACKOFF_MS * 2 ^ r : Nat) : ℚ) * (2 / 10) * ((1 : ℚ) / 2 - 1 / 2) = 0 := by
    rw [sub_self, mul_zero]
  simp only [calculate_backoff, hq, truncF64_zero, add_zero]
  have hlt : ((INITIAL_BACKOFF_MS * 2 ^ r : Nat) : Int) < (2 : Int) ^ 64 := by
    have h2 : (2 : Nat) ^ r ≤ 2 ^ 5 := Nat.pow_le_pow_right (by norm_num) hr
    have : (INITIAL_BACKOFF_MS * 2 ^ r : Nat) < 2 ^ 64 := by
      have := Nat.mul_le_mul_left INITIAL_BACKOFF_MS h2
      simp only [INITIAL_BACKOFF_MS] at this ⊢
      omega
    exact_mod_cast this
  rw [Int.emod_eq_of_lt (by positivity) hlt]
  simp only [INITIAL_BACKOFF_MS]
  omega

example :
    fetchBytes "u" (fun _ => .transportError 7) (fun _ => 1 / 2) =
      ⟨.error (.RequestError 7), 1, []⟩ := by decide

example :
    fetchText "u" (fun _ => .response 404 none none "") (fun _ => 1 / 2) =
      ⟨.error .NotFound, 1, []⟩ := by decide

example : calculate_backoff (1 / 2) 0 = 1000 := calculate_backoff_half 0 (by norm_num)

example : looksLikeJson "\x0C\x7b\"a\":1\x7d" = true := by decide

example : looksLikeJson " \t\n[1, 2]" = true := by decide

example : looksLikeJson "\x0C<html></html>" = false := by decide

/-- Truncation toward zero never moves a value past a symmetric bound. -/
theorem truncF64_le (x B : ℚ) (h1 : -B ≤ x) (h2 : x ≤ B) :
    -B ≤ (truncF64 x : ℚ) ∧ (truncF64 x : ℚ) ≤ B := by
  unfold truncF64
  by_cases h : 0 ≤ x
  · simp only [h, if_true]
    have hfl : (0 : ℚ) ≤ ((⌊x⌋ : ℤ) : ℚ) := by exact_mod_cast Int.floor_nonneg.mpr h
    have hB : (0 : ℚ) ≤ B := le_trans h h2
    exact ⟨by linarith, le_trans (Int.floor_le x) h2⟩
  · simp only [h, if_false]
    push_neg at h
    have hcl : ((⌈x⌉ : ℤ) : ℚ) ≤ 0 := by
      have hc : ⌈x⌉ ≤ (0 : ℤ) := Int.ceil_le.mpr (by exact_mod_cast le_of_lt h)
      exact_mod_cast hc
    have hB : (0 : ℚ) ≤ B := by linarith
    exact ⟨le_trans h1 (Int.le_ceil x), by linarith⟩

/-- The jittered backoff stays within ±10% of its base `1000 * 2^r` ms, for
every jitter sample in `[0,1)` and every retry count the loop can reach. -/
theorem calculate_backoff_bounds (q : ℚ) (hq0 : 0 ≤ q) (hq1 : q < 1)
    (r : Nat) (hr : r ≤ 5) :
    900 * 2 ^ r ≤ calculate_backoff q r ∧ calculate_backoff q r ≤ 1100 * 2 ^ r := by
  simp only [calculate_backoff]
  set x : ℚ := ((INITIAL_BACKOFF_MS * 2 ^ r : Nat) : ℚ) * (2 / 10) * (q - 1 / 2) with hxdef
  have hb : ((INITIAL_BACKOFF_MS * 2 ^ r : Nat) : ℚ) = 1000 * (2 : ℚ) ^ r := by
    simp only [INITIAL_BACKOFF_MS]; push_cast; ring
  have hBq : ((100 * 2 ^ r : Nat) : ℚ) = 100 * (2 : ℚ) ^ r := by push_cast; ring
  have hpowq : (0 : ℚ) < (2 : ℚ) ^ r := pow_pos (by norm_num) r
  have hx_lo : -((100 * 2 ^ r : Nat) : ℚ) ≤ x := by
    rw [hxdef, hb, hBq]; nlinarith
  have hx_hi : x ≤ ((100 * 2 ^ r : Nat) : ℚ) := by
    rw [hxdef, hb, hBq]; nlinarith
  obtain ⟨hj_lo, hj_hi⟩ := truncF64_le x _ hx_lo hx_hi
  have hjZ_lo : -((100 * 2 ^ r : Nat) : ℤ) ≤ truncF64 x := by exact_mod_cast hj_lo
  have hjZ_hi : truncF64 x ≤ ((100 * 2 ^ r : Nat) : ℤ) := by exact_mod_cast hj_hi
  set J : ℤ := truncF64 x with hJdef
  simp only [INITIAL_BACKOFF_MS] at *
  have hP : (2 : ℕ) ^ r ≤ 32 := by
    calc (2 : ℕ) ^ r ≤ 2 ^ 5 := Nat.pow_le_pow_right (by norm_num) hr
      _ = 32 := by norm_num
  have hv0 : (0 : ℤ) ≤ ((1000 * 2 ^ r : Nat) : ℤ) + J := by omega
  have hvlt : ((1000 * 2 ^ r : Nat) : ℤ) + J < (2 : ℤ) ^ 64 := by
    have h64 : (2 : ℤ) ^ 64 = 18446744073709551616 := by norm_num
    omega
  rw [Int.emod_eq_of_lt hv0 hvlt]
  omega

/-- Claim C8: the backoff computes `1000 * 2^retry` milliseconds jittered by
a uniform random offset `wait_ms * 0.2 * (rand - 0.5)`; for every jitter
sample in `[0,1)`, `backoff(0) ∈ [800,1200]` ms, `backoff(1) ∈ [1600,2400]`
ms, `backoff(2) ∈ [3200,4800]` ms, and for all retry counts `r1 < r2 ≤
MAX_RETRIES` and all jitter samples, `backoff(r1) < backoff(r2)`. -/
theorem backoff_ranges_and_monotonicity :
    (∀ q : ℚ, 0 ≤ q → q < 1 →
      (800 ≤ calculate_backoff q 0 ∧ calculate_backoff q 0 ≤ 1200) ∧
      (1600 ≤ calculate_backoff q 1 ∧ calculate_backoff q 1 ≤ 2400) ∧
      (3200 ≤ calculate_backoff q 2 ∧ calculate_backoff q 2 ≤ 4800)) ∧
    (∀ (r1 r2 : Nat) (q1 q2 : ℚ), r1 < r2 → r2 ≤ MAX_RETRIES →
      0 ≤ q1 → q1 < 1 → 0 ≤ q2 → q2 < 1 →
      calculate_backoff q1 r1 < calculate_backoff q2 r2) := by
  constructor
  · intro q h0 h1
    have b0 := calculate_backoff_bounds q h0 h1 0 (by norm_num)
    have b1 := calculate_backoff_bounds q h0 h1 1 (by norm_num)
    have b2 := calculate_backoff_bounds q h0 h1 2 (by norm_num)
    norm_num at b0 b1 b2
    omega
  · intro r1 r2 q1 q2 hlt hr2 h10 h11 h20 h21
    simp only [MAX_RETRIES] at hr2
    have b1 := calculate_backoff_bounds q1 h10 h11 r1 (by omega)
    have b2 := calculate_backoff_bounds q2 h20 h21 r2 hr2
    have hpow : 2 * 2 ^ r1 ≤ (2 : ℕ) ^ r2 := by
      calc 2 * 2 ^ r1 = 2 ^ (r1 + 1) := by ring
        _ ≤ 2 ^ r2 := Nat.pow_le_pow_right (by norm_num) hlt
    have hpos : 1 ≤ (2 : ℕ) ^ r1 := Nat.one_le_two_pow
    omega

/-- Witness for C8 at the concrete jitter samples `1/2` (both ranges and
strict monotonicity between retry counts 0 and 1). -/
theorem backoff_ranges_and_monotonicity_witness :
    (800 ≤ calculate_backoff (1 / 2) 0 ∧ calculate_backoff (1 / 2) 0 ≤ 1200) ∧
    calculate_backoff (1 / 2) 0 < calculate_backoff (1 / 2) 1 := by
  have h := backoff_ranges_and_monotonicity
  exact ⟨(h.1 (1 / 2) (by norm_num) (by norm_num)).1,
    h.2 0 1 (1 / 2) (1 / 2) (by norm_num) (by decide) (by norm_num) (by norm_num)
      (by norm_num) (by norm_num)⟩

/-- Claim C9: `Edgar::with_config` returns a configuration error exactly when
the user agent cannot be encoded as a header value, or the rate limit is
zero, or the HTTP client cannot be built with the given timeout; the
construction is pure in the transport oracles (no network connection is
modelled or performed). -/
theorem with_config_error_iff (ext : Externals) (config : EdgarConfig) :
    (∃ msg, with_config ext config = .error (.ConfigError msg)) ↔
      (ext.headerValueOk config.user_agent = false ∨
        config.rate_limit = 0 ∨
        ext.clientBuildOk config.user_agent config.timeout = false) := by
  unfold with_config
  rcases h1 : ext.headerValueOk config.user_agent with _ | _ <;>
    rcases h2 : ext.clientBuildOk config.user_agent config.timeout with _ | _ <;>
      rcases h3 : config.rate_limit with _ | n <;>
        simp [h1, h2, h3]

/-- Claim C10: for every user agent, `Edgar::new ua` and `Edgar::with_config`
on `{ user_agent: ua, rate_limit: 10, timeout: 30 s, base_urls: default EDGAR
URLs }` are the same computation: they fail or succeed identically, and on
success produce identical clients (same stored URLs, same quota, same
timeout). -/
theorem new_eq_with_config_default (ext : Externals) (ua : String) :
    Edgar.new ext ua = with_config ext (claimDefaultConfig ua) := rfl

/-- A done-classified attempt returns immediately, whatever the remaining
retry budget: one more HTTP attempt, no sleep added. -/
theorem runLoop_done (step : AttemptResult → StepClass) (att : Nat → AttemptResult)
    (rand : Nat → ℚ) (remaining idx : Nat) (sleeps : List Nat)
    (res : Except EdgarError String) (h : step (att idx) = .done res) :
    runLoop step att rand remaining idx sleeps = ⟨res, idx + 1, sleeps⟩ := by
  cases remaining <;> simp [runLoop, h]

/-- A retry-classified attempt with the budget exhausted returns the
exhaustion error. -/
theorem runLoop_exhausted (step : AttemptResult → StepClass) (att : Nat → AttemptResult)
    (rand : Nat → ℚ) (idx : Nat) (sleeps : List Nat)
    (ex : EdgarError) (w : ℚ → Nat → Nat) (h : step (att idx) = .retry ex w) :
    runLoop step att rand 0 idx sleeps = ⟨.error ex, idx + 1, sleeps⟩ := by
  simp [runLoop, h]

/-- A retry-classified attempt with budget left sleeps its wait and loops. -/
theorem runLoop_retry_step (step : AttemptResult → StepClass) (att : Nat → AttemptResult)
    (rand : Nat → ℚ) (r idx : Nat) (sleeps : List Nat)
    (ex : EdgarError) (w : ℚ → Nat → Nat) (h : step (att idx) = .retry ex w) :
    runLoop step att rand (r + 1) idx sleeps =
      runLoop step att rand r (idx + 1)
        (sleeps ++ [w (rand (MAX_RETRIES - (r + 1))) (MAX_RETRIES - (r + 1))]) := by
  simp [runLoop, h]

/-- Any run of the loop only appends to the accumulated sleep list. -/
theorem runLoop_sleeps_grow (step : AttemptResult → StepClass)
    (att : Nat → AttemptResult) (rand : Nat → ℚ) :
    ∀ (remaining idx : Nat) (sleeps : List Nat),
      ∃ rest, (runLoop step att rand remaining idx sleeps).sleeps = sleeps ++ rest := by
  intro remaining
  induction remaining with
  | zero =>
    intro idx sleeps
    cases h : step (att idx) with
    | done res => exact ⟨[], by rw [runLoop_done step att rand 0 idx sleeps res h]; simp⟩
    | retry ex w => exact ⟨[], by rw [runLoop_exhausted step att rand idx sleeps ex w h]; simp⟩
  | succ r ih =>
    intro idx sleeps
    cases h : step (att idx) with
    | done res => exact ⟨[], by rw [runLoop_done step att rand (r + 1) idx sleeps res h]; simp⟩
    | retry ex w =>
      obtain ⟨rest, hrest⟩ := ih (idx + 1)
        (sleeps ++ [w (rand (MAX_RETRIES - (r + 1))) (MAX_RETRIES - (r + 1))])
      refine ⟨[w (rand (MAX_RETRIES - (r + 1))) (MAX_RETRIES - (r + 1))] ++ rest, ?_⟩
      rw [runLoop_retry_step step att rand r idx sleeps ex w h, hrest, List.append_assoc]

/-- When every attempt is classified retryable with the same exhaustion
error, the loop spends its whole budget and fails with that error after
`remaining + 1` further attempts. -/
theorem runLoop_all_retry (step : AttemptResult → StepClass)
    (att : Nat → AttemptResult) (rand : Nat → ℚ) (ex : EdgarError)
    (h : ∀ i, ∃ w, step (att i) = .retry ex w) :
    ∀ (remaining idx : Nat) (sleeps : List Nat),
      (runLoop step att rand remaining idx sleeps).result = .error ex ∧
      (runLoop step att rand remaining idx sleeps).attempts = idx + remaining + 1 := by
  intro remaining
  induction remaining with
  | zero =>
    intro idx sleeps
    obtain ⟨w, hw⟩ := h idx
    rw [runLoop_exhausted step att rand idx sleeps ex w hw]
    exact ⟨rfl, rfl⟩
  | succ r ih =>
    intro idx sleeps
    obtain ⟨w, hw⟩ := h idx
    rw [runLoop_retry_step step att rand r idx sleeps ex w hw]
    refine ⟨(ih (idx + 1) _).1, ?_⟩
    rw [(ih (idx + 1) _).2]
    omega

/-- The loop's trace depends only on the classification of each attempt. -/
theorem runLoop_congr (step1 step2 : AttemptResult → StepClass)
    (att1 att2 : Nat → AttemptResult) (rand : Nat → ℚ)
    (h : ∀ i, step1 (att1 i) = step2 (att2 i)) :
    ∀ (remaining idx : Nat) (sleeps : List Nat),
      runLoop step1 att1 rand remaining idx sleeps =
        runLoop step2 att2 rand remaining idx sleeps := by
  intro remaining
  induction remaining with
  | zero => intro idx sleeps; simp [runLoop, h idx]
  | succ r ih =>
    intro idx sleeps
    cases hc : step2 (att2 idx) with
    | done res =>
      rw [runLoop_done step1 att1 rand (r + 1) idx sleeps res ((h idx).trans hc),
        runLoop_done step2 att2 rand (r + 1) idx sleeps res hc]
    | retry ex w =>
      rw [runLoop_retry_step step1 att1 rand r idx sleeps ex w ((h idx).trans hc),
        runLoop_retry_step step2 att2 rand r idx sleeps ex w hc, ih]

/-- A string that contains `"text/html"` literally still contains it after
character-wise lowercasing (the pattern is lowercase-invariant), so the
source's `to_lowercase().contains(..)` test fires. -/
theorem ctContainsHtml_of_contains (c : String)
    (h : containsSub c "text/html" = true) : ctContainsHtml c = true := by
  unfold containsSub at h
  rw [List.any_eq_true] at h
  obtain ⟨i, hi, hpre⟩ := h
  rw [ List.isPrefixOf_iff_prefix] at hpre
  have hmap : ("text/html".toList).map Char.toLower <+:
      (c.toList.drop i).map Char.toLower := hpre.map Char.toLower
  rw [show ("text/html".toList).map Char.toLower = "text/html".toList from by decide,
    List.map_drop] at hmap
  unfold ctContainsHtml containsSub
  rw [List.any_eq_true]
  refine ⟨i, ?_, ?_⟩
  · have : (lowerStr c).toList.length = c.toList.length := by
      show (c.toList.map Char.toLower).length = c.toList.length
      exact List.length_map c.toList Char.toLower
    rw [this]
    exact hi
  · rw [ List.isPrefixOf_iff_prefix]
    exact hmap

/-- `textStep` on a 429 response: retryable, exhausting to
`RateLimitExceeded`, waiting the `Retry-After`-or-backoff duration. -/
theorem textStep_429 (url : String) (ct ra : Option String) (b : String) :
    textStep url (.response 429 ct ra b) =
      .retry .RateLimitExceeded (fun q retries => retryAfterWaitMs ra q retries) := by
  simp [textStep, sniffOutcome, isSuccess]

/-- `bytesStep` on a 429 response: retryable, exhausting to
`RateLimitExceeded`, always waiting `calculate_backoff`. -/
theorem bytesStep_429 (ct ra : Option String) (b : String) :
    bytesStep (.response 429 ct ra b) =
      .retry .RateLimitExceeded (fun q retries => calculate_backoff q retries) := by
  simp [bytesStep]

/-- `textStep` on a 404 response: done with `NotFound` (the content-type
block does not fire: 404 is not a success status). -/
theorem textStep_404 (url : String) (ct ra : Option String) (b : String) :
    textStep url (.response 404 ct ra b) = .done (.error .NotFound) := by
  simp [textStep, sniffOutcome, isSuccess]

/-- `bytesStep` on a 404 response: done with `NotFound`. -/
theorem bytesStep_404 (ct ra : Option String) (b : String) :
    bytesStep (.response 404 ct ra b) = .done (.error .NotFound) := by
  simp [bytesStep]

/-- `textStep` when the content-type validation block intercepts. -/
theorem textStep_sniff (url : String) (s : Nat) (ct ra : Option String) (b : String)
    (res : Except EdgarError String) (hs : sniffOutcome url s ct b = some res) :
    textStep url (.response s ct ra b) = .done res := by
  simp [textStep, hs]

/-- `textStep` on a response the validation block lets through and that is
neither 404 nor 429: `Ok` for 200, `InvalidResponse` otherwise. -/
theorem textStep_other (url : String) (s : Nat) (ct ra : Option String) (b : String)
    (h404 : s ≠ 404) (h429 : s ≠ 429) (hs : sniffOutcome url s ct b = none) :
    textStep url (.response s ct ra b) =
      (if s = 200 then .done (.ok b)
       else .done (.error (.InvalidResponse (invalidResponseMsgText s url b)))) := by
  simp [textStep, hs, h404, h429]

/-- `bytesStep` on a response that is neither 404 nor 429. -/
theorem bytesStep_other (s : Nat) (ct ra : Option String) (b : String)
    (h404 : s ≠ 404) (h429 : s ≠ 429) :
    bytesStep (.response s ct ra b) =
      (if s = 200 then .done (.ok b)
       else .done (.error (.InvalidResponse ("Unexpected status code: " ++ toString s)))) := by
  simp [bytesStep, h404, h429]

/-- Claim C1 (code bug in `get_bytes`): the claim — and `get_bytes`'s own doc
comment ("will retry up to 5 times for rate limit errors (429) or network
failures") — says both fetches retry transport-level failures; `get` does
(six attempts and five sleeps on persistent transport failure, then
`RequestError`), but `get_bytes` returns `RequestError` after a single
attempt with no sleep: its `send()` error is propagated by
`.map_err(EdgarError::RequestError)?` before the retry logic is reached. -/
theorem get_bytes_transport_error_not_retried :
    (fetchBytes "https://www.sec.gov/Archives/edgar/daily-index/2024.zip"
        (fun _ => .transportError 7) (fun _ => 1 / 2) =
      ⟨.error (.RequestError 7), 1, []⟩) ∧
    ((fetchText "https://data.sec.gov/submissions/CIK0000320193.json"
        (fun _ => .transportError 7) (fun _ => 1 / 2)).result = .error (.RequestError 7) ∧
      (fetchText "https://data.sec.gov/submissions/CIK0000320193.json"
        (fun _ => .transportError 7) (fun _ => 1 / 2)).attempts = 6 ∧
      (fetchText "https://data.sec.gov/submissions/CIK0000320193.json"
        (fun _ => .transportError 7) (fun _ => 1 / 2)).sleeps.length = 5) :=
  ⟨by decide, by decide, by decide, by decide⟩

/-- Claim C3: a call whose every HTTP attempt returns status 429 fails with
`RateLimitExceeded` after exactly `MAX_RETRIES + 1 = 6` attempts, for both
`get` and `get_bytes`. -/
theorem all_429_exactly_six_attempts (url : String) (attT attB : Nat → AttemptResult)
    (randT randB : Nat → ℚ)
    (hT : ∀ i, ∃ ct ra b, attT i = AttemptResult.response 429 ct ra b)
    (hB : ∀ i, ∃ ct ra b, attB i = AttemptResult.response 429 ct ra b) :
    ((fetchText url attT randT).result = .error .RateLimitExceeded ∧
      (fetchText url attT randT).attempts = 6) ∧
    ((fetchBytes url attB randB).result = .error .RateLimitExceeded ∧
      (fetchBytes url attB randB).attempts = 6) := by
  constructor
  · have h : ∀ i, ∃ w, textStep url (attT i) = .retry .RateLimitExceeded w := by
      intro i
      obtain ⟨ct, ra, b, hi⟩ := hT i
      exact ⟨_, by rw [hi, textStep_429]⟩
    have hr := runLoop_all_retry (textStep url) attT randT .RateLimitExceeded h MAX_RETRIES 0 []
    rw [show MAX_RETRIES = 5 from rfl] at hr
    exact ⟨hr.1, hr.2⟩
  · have h : ∀ i, ∃ w, bytesStep (attB i) = .retry .RateLimitExceeded w := by
      intro i
      obtain ⟨ct, ra, b, hi⟩ := hB i
      exact ⟨_, by rw [hi, bytesStep_429]⟩
    have hr := runLoop_all_retry bytesStep attB randB .RateLimitExceeded h MAX_RETRIES 0 []
    rw [show MAX_RETRIES = 5 from rfl] at hr
    exact ⟨hr.1, hr.2⟩

/-- Witness for C3: a concrete always-429 transport. -/
theorem all_429_exactly_six_attempts_witness :
    ((fetchText "https://data.sec.gov/submissions/CIK0000320193.json"
        (fun _ => .response 429 none none "") (fun _ => 1 / 2)).result =
          .error .RateLimitExceeded ∧
      (fetchText "https://data.sec.gov/submissions/CIK0000320193.json"
        (fun _ => .response 429 none none "") (fun _ => 1 / 2)).attempts = 6) ∧
    ((fetchBytes "https://www.sec.gov/Archives/edgar/daily-index/2024.zip"
        (fun _ => .response 429 none none "") (fun _ => 1 / 2)).result =
          .error .RateLimitExceeded ∧
      (fetchBytes "https://www.sec.gov/Archives/edgar/daily-index/2024.zip"
        (fun _ => .response 429 none none "") (fun _ => 1 / 2)).attempts = 6) :=
  all_429_exactly_six_attempts "https://data.sec.gov/submissions/CIK0000320193.json"
    (fun _ => .response 429 none none "") (fun _ => .response 429 none none "")
    (fun _ => 1 / 2) (fun _ => 1 / 2)
    (fun _ => ⟨none, none, "", rfl⟩) (fun _ => ⟨none, none, "", rfl⟩)

/-- Claim C6: a first attempt answered 404 returns `NotFound` after exactly
one attempt, with no retry and no sleep, for both fetches. -/
theorem not_found_no_retry (url : String) (att : Nat → AttemptResult)
    (rand : Nat → ℚ) (ct ra : Option String) (body : String)
    (h : att 0 = AttemptResult.response 404 ct ra body) :
    fetchText url att rand = ⟨.error .NotFound, 1, []⟩ ∧
    fetchBytes url att rand = ⟨.error .NotFound, 1, []⟩ := by
  constructor
  · have hstep : textStep url (att 0) = .done (.error .NotFound) := by
      rw [h, textStep_404]
    rw [fetchText, runLoop_done (textStep url) att rand MAX_RETRIES 0 [] _ hstep]
  · have hstep : bytesStep (att 0) = .done (.error .NotFound) := by
      rw [h, bytesStep_404]
    rw [fetchBytes, runLoop_done bytesStep att rand MAX_RETRIES 0 [] _ hstep]

/-- Witness for C6 at a concrete 404 transport. -/
theorem not_found_no_retry_witness :
    fetchText "https://data.sec.gov/submissions/CIK0000000000.json"
        (fun _ => .response 404 none none "Not Found") (fun _ => 1 / 2) =
      ⟨.error .NotFound, 1, []⟩ ∧
    fetchBytes "https://data.sec.gov/submissions/CIK0000000000.json"
        (fun _ => .response 404 none none "Not Found") (fun _ => 1 / 2) =
      ⟨.error .NotFound, 1, []⟩ :=
  not_found_no_retry "https://data.sec.gov/submissions/CIK0000000000.json"
    (fun _ => .response 404 none none "Not Found") (fun _ => 1 / 2) none none "Not Found" rfl

/-- Claim C2 counterexample: status 201 lies in 200..299, yet both fetches
answer it with `InvalidResponse`, not `Ok` — the source matches
`StatusCode::OK` (exactly 200), not `is_success()`. -/
theorem status_201_not_ok :
    isSuccess 201 = true ∧
    (fetchText "https://www.sec.gov/Archives/edgar/data/320193/index.txt"
        (fun _ => .response 201 none none "hello") (fun _ => 1 / 2)).result =
      .error (.InvalidResponse
        (invalidResponseMsgText 201 "https://www.sec.gov/Archives/edgar/data/320193/index.txt" "hello")) ∧
    (fetchBytes "https://www.sec.gov/Archives/edgar/data/320193/index.txt"
        (fun _ => .response 201 none none "hello") (fun _ => 1 / 2)).result =
      .error (.InvalidResponse ("Unexpected status code: " ++ toString 201)) :=
  ⟨by decide, by decide, by decide⟩

/-- Claim C2 amended: outside the `.json`/`text/html` sniff path, an attempt
returns `Ok` with the full body exactly when its status is 200; every status
other than 200, 404 and 429 — including 2xx statuses other than 200 —
produces `InvalidResponse`.  Either way the call ends on that attempt with no
sleep. -/
theorem single_attempt_status_classification (url : String) (s : Nat)
    (ct ra : Option String) (body : String) (randT randB : Nat → ℚ)
    (attT attB : Nat → AttemptResult)
    (hT : attT 0 = .response s ct ra body) (hB : attB 0 = .response s ct ra body)
    (h404 : s ≠ 404) (h429 : s ≠ 429) (hsniff : sniffOutcome url s ct body = none) :
    fetchText url attT randT =
      ⟨if s = 200 then .ok body
        else .error (.InvalidResponse (invalidResponseMsgText s url body)), 1, []⟩ ∧
    fetchBytes url attB randB =
      ⟨if s = 200 then .ok body
        else .error (.InvalidResponse ("Unexpected status code: " ++ toString s)), 1, []⟩ := by
  constructor
  · have hstep := textStep_other url s ct ra body h404 h429 hsniff
    by_cases h200 : s = 200
    · rw [if_pos h200] at hstep
      rw [fetchText, runLoop_done (textStep url) attT randT MAX_RETRIES 0 [] _
        (by rw [hT]; exact hstep), if_pos h200]
    · rw [if_neg h200] at hstep
      rw [fetchText, runLoop_done (textStep url) attT randT MAX_RETRIES 0 [] _
        (by rw [hT]; exact hstep), if_neg h200]
  · have hstep := bytesStep_other s ct ra body h404 h429
    by_cases h200 : s = 200
    · rw [if_pos h200] at hstep
      rw [fetchBytes, runLoop_done bytesStep attB randB MAX_RETRIES 0 [] _
        (by rw [hB]; exact hstep), if_pos h200]
    · rw [if_neg h200] at hstep
      rw [fetchBytes, runLoop_done bytesStep attB randB MAX_RETRIES 0 [] _
        (by rw [hB]; exact hstep), if_neg h200]

/-- Witness for the amended C2 at the concrete status 403. -/
theorem single_attempt_status_classification_witness :
    fetchText "https://www.sec.gov/Archives/edgar/full-index/form.idx"
        (fun _ => .response 403 none none "Forbidden") (fun _ => 1 / 2) =
      ⟨.error (.InvalidResponse
        (invalidResponseMsgText 403 "https://www.sec.gov/Archives/edgar/full-index/form.idx" "Forbidden")),
        1, []⟩ ∧
    fetchBytes "https://www.sec.gov/Archives/edgar/full-index/form.idx"
        (fun _ => .response 403 none none "Forbidden") (fun _ => 1 / 2) =
      ⟨.error (.InvalidResponse ("Unexpected status code: " ++ toString 403)), 1, []⟩ := by
  have h := single_attempt_status_classification
    "https://www.sec.gov/Archives/edgar/full-index/form.idx" 403 none none "Forbidden"
    (fun _ => 1 / 2) (fun _ => 1 / 2)
    (fun _ => .response 403 none none "Forbidden") (fun _ => .response 403 none none "Forbidden")
    rfl rfl (by decide) (by decide) (by decide)
  simpa using h

/-- Claim C4: on a `.json` URL whose attempt has a success status and a
content type containing `"text/html"`, `get` decides on that first attempt
with no retry: `Ok` with the unchanged body when the trimmed body starts with
a brace or bracket, otherwise `UnexpectedContentType` carrying the URL, the
pattern `"application/json"`, the received content type and the first 200
characters of the body. -/
theorem json_html_sniff (url c body : String) (s : Nat) (ra : Option String)
    (att : Nat → AttemptResult) (rand : Nat → ℚ)
    (hatt : att 0 = .response s (some c) ra body)
    (hjson : endsWithStr url ".json" = true) (hs : isSuccess s = true)
    (hct : containsSub c "text/html" = true) :
    fetchText url att rand =
      (if looksLikeJson body then ⟨.ok body, 1, []⟩
       else ⟨.error (.UnexpectedContentType url "application/json" c (takeChars 200 body)),
         1, []⟩) := by
  have hl : ctContainsHtml c = true := ctContainsHtml_of_contains c hct
  have hsn : sniffOutcome url s (some c) body =
      some (if looksLikeJson body then .ok body
        else .error (.UnexpectedContentType url "application/json" c (takeChars 200 body))) := by
    unfold sniffOutcome
    rw [hjson, hs]
    simp [hl]
  have hstep := textStep_sniff url s (some c) ra body _ hsn
  rw [fetchText, runLoop_done (textStep url) att rand MAX_RETRIES 0 [] _
    (by rw [hatt]; exact hstep)]
  by_cases hb : looksLikeJson body
  · rw [if_pos hb, if_pos hb]
  · rw [if_neg hb, if_neg hb]

/-- Witness for C4: a mislabeled HTML error page on a `.json` URL is rejected
with a preview; the sniff hypotheses are discharged concretely. -/
theorem json_html_sniff_witness :
    fetchText "https://data.sec.gov/api/xbrl/companyfacts/CIK0000320193.json"
        (fun _ => .response 200 (some "text/html; charset=utf-8") none "<html>Service Unavailable</html>")
        (fun _ => 1 / 2) =
      ⟨.error (.UnexpectedContentType "https://data.sec.gov/api/xbrl/companyfacts/CIK0000320193.json"
          "application/json" "text/html; charset=utf-8"
          (takeChars 200 "<html>Service Unavailable</html>")), 1, []⟩ := by
  have h := json_html_sniff "https://data.sec.gov/api/xbrl/companyfacts/CIK0000320193.json"
    "text/html; charset=utf-8" "<html>Service Unavailable</html>" 200 none
    (fun _ => .response 200 (some "text/html; charset=utf-8") none "<html>Service Unavailable</html>")
    (fun _ => 1 / 2) rfl (by decide) (by decide) (by decide)
  rw [h, if_neg (by decide)]

/-- Claim C5 counterexample: `get_bytes` receives a 429 carrying a parseable
`Retry-After: 7` header but sleeps the exponential backoff (1000 ms at jitter
sample 1/2), not the server-supplied 7000 ms. -/
theorem bytes_ignores_retry_after :
    parseU64 "7" = some 7 ∧
    (fetchBytes "https://www.sec.gov/Archives/edgar/daily-index/2024.zip"
        (fun i => if i = 0 then AttemptResult.response 429 none (some "7") ""
          else AttemptResult.response 200 none none "ok")
        (fun _ => 1 / 2)).sleeps = [1000] ∧
    (1000 : Nat) ≠ 7 * 1000 := by
  refine ⟨by decide, ?_, by decide⟩
  have hstep0 : bytesStep ((fun i => if i = 0 then AttemptResult.response 429 none (some "7") ""
      else AttemptResult.response 200 none none "ok") 0) =
      .retry .RateLimitExceeded (fun q retries => calculate_backoff q retries) := by
    simp [bytesStep]
  have hstep1 : bytesStep ((fun i => if i = 0 then AttemptResult.response 429 none (some "7") ""
      else AttemptResult.response 200 none none "ok") 1) = .done (.ok "ok") := by
    simp [bytesStep]
  rw [fetchBytes, show MAX_RETRIES = 4 + 1 from rfl,
    runLoop_retry_step _ _ _ 4 0 [] _ _ hstep0,
    runLoop_done _ _ _ 4 1 _ _ hstep1]
  have hcb : calculate_backoff ((2 : ℚ)⁻¹) 0 = 1000 := by
    rw [show ((2 : ℚ)⁻¹) = 1 / 2 by norm_num, calculate_backoff_half 0 (by norm_num)]
    norm_num
  simp [MAX_RETRIES, hcb]

/-- Claim C5 amended: on a first-attempt 429 with retries remaining, `get`
waits the `Retry-After` header value in whole seconds when present and
parseable, otherwise the exponential backoff (that disjunction is
`retryAfterWaitMs`); `get_bytes` always waits the exponential backoff,
ignoring any `Retry-After` header. -/
theorem first_429_wait (url : String) (attT attB : Nat → AttemptResult)
    (randT randB : Nat → ℚ) (ct ra ctB raB : Option String) (body bodyB : String)
    (hT : attT 0 = .response 429 ct ra body)
    (hB : attB 0 = .response 429 ctB raB bodyB) :
    (fetchText url attT randT).sleeps.head? = some (retryAfterWaitMs ra (randT 0) 0) ∧
    (fetchBytes url attB randB).sleeps.head? = some (calculate_backoff (randB 0) 0) := by
  constructor
  · have hstep : textStep url (attT 0) =
        .retry .RateLimitExceeded (fun q retries => retryAfterWaitMs ra q retries) := by
      rw [hT, textStep_429]
    rw [fetchText, show MAX_RETRIES = 4 + 1 from rfl,
      runLoop_retry_step _ _ _ 4 0 [] _ _ hstep]
    obtain ⟨rest, hrest⟩ := runLoop_sleeps_grow (textStep url) attT randT 4 1
      ([] ++ [retryAfterWaitMs ra (randT (MAX_RETRIES - (4 + 1))) (MAX_RETRIES - (4 + 1))])
    rw [hrest]
    simp [MAX_RETRIES]
  · have hstep : bytesStep (attB 0) =
        .retry .RateLimitExceeded (fun q retries => calculate_backoff q retries) := by
      rw [hB, bytesStep_429]
    rw [fetchBytes, show MAX_RETRIES = 4 + 1 from rfl,
      runLoop_retry_step _ _ _ 4 0 [] _ _ hstep]
    obtain ⟨rest, hrest⟩ := runLoop_sleeps_grow bytesStep attB randB 4 1
      ([] ++ [calculate_backoff (randB (MAX_RETRIES - (4 + 1))) (MAX_RETRIES - (4 + 1))])
    rw [hrest]
    simp [MAX_RETRIES]

/-- Witness for the amended C5: a parseable `Retry-After: 7` makes `get` wait
7000 ms while `get_bytes` waits its 1000 ms backoff (jitter sample 1/2). -/
theorem first_429_wait_witness :
    (fetchText "https://data.sec.gov/submissions/CIK0000320193.json"
        (fun _ => .response 429 none (some "7") "slow down") (fun _ => 1 / 2)).sleeps.head? =
      some 7000 ∧
    (fetchBytes "https://data.sec.gov/submissions/CIK0000320193.json"
        (fun _ => .response 429 none (some "7") "slow down") (fun _ => 1 / 2)).sleeps.head? =
      some 1000 := by
  have h := first_429_wait "https://data.sec.gov/submissions/CIK0000320193.json"
    (fun _ => .response 429 none (some "7") "slow down")
    (fun _ => .response 429 none (some "7") "slow down")
    (fun _ => 1 / 2) (fun _ => 1 / 2) none (some "7") none (some "7")
    "slow down" "slow down" rfl rfl
  have hp : parseU64 "7" = some 7 := by decide
  have hcb : calculate_backoff ((2 : ℚ)⁻¹) 0 = 1000 := by
    rw [show ((2 : ℚ)⁻¹) = 1 / 2 by norm_num, calculate_backoff_half 0 (by norm_num)]
    norm_num
  simpa [retryAfterWaitMs, hp, hcb] using h

/-- If the validation guard `url.ends_with(".json") && status.is_success()`
is false, the validation block falls through. -/
theorem sniffOutcome_none_of_false (url : String) (s : Nat) (ct : Option String)
    (b : String) (h : (endsWithStr url ".json" && isSuccess s) = false) :
    sniffOutcome url s ct b = none := by
  unfold sniffOutcome
  rw [h]
  simp

/-- When the validation block falls through, one `get` iteration is exactly
the validation-free iteration. -/
theorem textStep_eq_plain (url : String) (s : Nat) (ct ra : Option String)
    (b : String) (hs : sniffOutcome url s ct b = none) :
    textStep url (.response s ct ra b) = plainTextStep url (.response s ct ra b) := by
  simp [textStep, plainTextStep, hs]

/-- Claim C7 counterexample: a URL whose *path* ends in `.json` but whose
full string does not (a query string follows).  The claim requires the
content-type validation to apply; the source tests the flat string, skips
validation, and returns the HTML body as `Ok`. -/
theorem path_json_query_no_validation :
    endsWithStr (Url.path ⟨"https://data.sec.gov", "/a.json", some "x=1"⟩) ".json" = true ∧
    Url.render ⟨"https://data.sec.gov", "/a.json", some "x=1"⟩ =
      "https://data.sec.gov/a.json?x=1" ∧
    endsWithStr "https://data.sec.gov/a.json?x=1" ".json" = false ∧
    (fetchText (Url.render ⟨"https://data.sec.gov", "/a.json", some "x=1"⟩)
        (fun _ => .response 200 (some "text/html") none "<html>err</html>")
        (fun _ => 1 / 2)).result = .ok "<html>err</html>" :=
  ⟨by decide, by decide, by decide, by decide⟩

/-- Claim C7 amended: `get` applies the HTML-vs-JSON validation exactly when
the *full URL string* (not merely its path) ends in `.json` and the attempt's
status is a success status: when no attempt satisfies that conjunction the
call coincides with the validation-free classification; `get_bytes` never
reads the content type; and when the conjunction holds with an HTML content
type and a non-JSON body, the validation decides the call. -/
theorem validation_iff_url_string_json :
    (∀ (url : String) (att : Nat → AttemptResult) (rand : Nat → ℚ),
      (∀ i s ct ra b, att i = AttemptResult.response s ct ra b →
        (endsWithStr url ".json" && isSuccess s) = false) →
      fetchText url att rand = fetchTextPlain url att rand) ∧
    (∀ (url : String) (att : Nat → AttemptResult) (rand : Nat → ℚ),
      fetchBytes url att rand = fetchBytes url (fun i => eraseCT (att i)) rand) ∧
    (∀ (url c body : String) (s : Nat) (ra : Option String)
        (att : Nat → AttemptResult) (rand : Nat → ℚ),
      att 0 = AttemptResult.response s (some c) ra body →
      endsWithStr url ".json" = true → isSuccess s = true →
      ctContainsHtml c = true → looksLikeJson body = false →
      (fetchText url att rand).result =
        .error (.UnexpectedContentType url "application/json" c (takeChars 200 body))) := by
  refine ⟨?_, ?_, ?_⟩
  · intro url att rand hcond
    rw [fetchText, fetchTextPlain]
    apply runLoop_congr
    intro i
    cases hatt : att i with
    | transportError e => rfl
    | response s ct ra b =>
      exact textStep_eq_plain url s ct ra b
        (sniffOutcome_none_of_false url s ct b (hcond i s ct ra b hatt))
  · intro url att rand
    rw [fetchBytes, fetchBytes]
    apply runLoop_congr
    intro i
    cases hatt : att i with
    | transportError e => rfl
    | response s ct ra b => simp [bytesStep, eraseCT]
  · intro url c body s ra att rand hatt hjson hs hct hbody
    have hsn : sniffOutcome url s (some c) body =
        some (.error (.UnexpectedContentType url "application/json" c (takeChars 200 body))) := by
      unfold sniffOutcome
      rw [hjson, hs]
      simp [hct, hbody]
    rw [fetchText, runLoop_done (textStep url) att rand MAX_RETRIES 0 [] _
      (by rw [hatt]; exact textStep_sniff url s (some c) ra body _ hsn)]

/-- Witness for the amended C7: a `.json` URL with a 404 attempt (guard
false: 404 is no success) behaves exactly like the validation-free loop, and
the same URL with a 200/`text/html`/HTML-body attempt is rejected by the
validation. -/
theorem validation_iff_url_string_json_witness :
    fetchText "https://data.sec.gov/submissions/CIK0000320193.json"
        (fun _ => .response 404 none none "nf") (fun _ => 1 / 2) =
      fetchTextPlain "https://data.sec.gov/submissions/CIK0000320193.json"
        (fun _ => .response 404 none none "nf") (fun _ => 1 / 2) ∧
    (fetchText "https://data.sec.gov/submissions/CIK0000320193.json"
        (fun _ => .response 200 (some "text/html") none "<html>") (fun _ => 1 / 2)).result =
      .error (.UnexpectedContentType "https://data.sec.gov/submissions/CIK0000320193.json"
        "application/json" "text/html" (takeChars 200 "<html>")) := by
  have h := validation_iff_url_string_json
  refine ⟨h.1 _ _ _ ?_,
    h.2.2 _ "text/html" "<html>" 200 none _ _ rfl (by decide) (by decide) (by decide) (by decide)⟩
  intro i s ct ra b hb
  simp only [AttemptResult.response.injEq] at hb
  obtain ⟨h1, -, -, -⟩ := hb
  subst h1
  decide
